import Mathlib

/-!
Verification development for the kanji-ai-agent coordination core.

This file gives a shallow embedding, in Lean 4, of the parts of the source
that the specification's testable properties speak about:

* `Model`   — `src/models/coordination_session.py` (the `CoordinationSession`
  entity, its phase table, checkpoints and agent-instance bookkeeping) and the
  `TimeSlot` / `Venue` models it references.
* `Base`    — `src/agents/base_agent.py` (message envelope, dispatch, send).
* `Sched`   — `src/agents/scheduling_agent.py` (the time-slot optimizer).
* `VenueA`  — `src/agents/venue_agent.py` (multi-source search and fallback).
* `Coord`   — `src/agents/coordination_agent.py` (dependency-ordered starts).

Modelling conventions: wall-clock readings (`datetime.utcnow()`) become an
explicit `now : Nat` argument (seconds); `float` arithmetic is embedded in `ℚ`;
Python dict payloads (`Dict[str, Any]`) become association lists
(`List (String × String)`); nondeterministic UUID fields are omitted; Python
truthiness of optional strings / dicts / numbers is modelled explicitly by the
`strTruthy` / `dataTruthy` / option-nonzero helpers.  Dispatch is instrumented
with a trace of the handlers it invokes, so that "never invokes a handler" is
a statement about the model rather than about missing observations.
-/

abbrev Data := List (String × String)

/-- Python truthiness of an `Optional[str]`: `None` and `""` are falsy. -/
def strTruthy : Option String → Bool
  | none => false
  | some t => !(t == "")

/-- Python truthiness of an `Optional[Dict]`: `None` and `{}` are falsy. -/
def dataTruthy : Option Data → Bool
  | none => false
  | some d => !d.isEmpty

namespace Model

/-- Coordination phases (`CoordinationPhase` in coordination_session.py). -/
inductive CoordinationPhase where
  | initialization
  | participant_collection
  | schedule_coordination
  | venue_coordination
  | calendar_integration
  | final_confirmation
  | announcement
  | completed
deriving DecidableEq

/-- The string value of each phase (the `str`-enum values). -/
def CoordinationPhase.value : CoordinationPhase → String
  | .initialization => "initialization"
  | .participant_collection => "participant_collection"
  | .schedule_coordination => "schedule_coordination"
  | .venue_coordination => "venue_coordination"
  | .calendar_integration => "calendar_integration"
  | .final_confirmation => "final_confirmation"
  | .announcement => "announcement"
  | .completed => "completed"

/-- Agent status values (`AgentStatus` in coordination_session.py). -/
inductive AgentStatus where
  | idle
  | active
  | waiting
  | completed
  | error
  | timeout
deriving DecidableEq

/-- `ErrorEntry` of coordination_session.py. -/
structure ErrorEntry where
  timestamp : Nat
  agent_name : String
  error_type : String
  error_message : String
  resolved : Bool := false
deriving DecidableEq

/-- `AgentInstance` of coordination_session.py. -/
structure AgentInstance where
  agent_name : String
  status : AgentStatus := .idle
  started_at : Option Nat := none
  completed_at : Option Nat := none
  last_heartbeat : Option Nat := none
  current_task : Option String := none
  progress_percentage : Nat := 0
  result_data : Data := []
  error_count : Nat := 0
deriving DecidableEq

/-- The per-agent state recorded inside a checkpoint (`create_checkpoint`). -/
structure AgentSnapshot where
  status : AgentStatus
  progress : Nat
  current_task : Option String
deriving DecidableEq

/-- `WorkflowCheckpoint` of coordination_session.py (uuid field omitted). -/
structure WorkflowCheckpoint where
  phase : CoordinationPhase
  timestamp : Nat
  data_snapshot : Data
  agent_states : List (String × AgentSnapshot)
  decision_points : List String
deriving DecidableEq

/-- `CoordinationSession` of coordination_session.py (uuid / Slack-thread /
configuration fields not touched by the verified operations are omitted). -/
structure CoordinationSession where
  event_id : String
  current_phase : CoordinationPhase := .initialization
  previous_phase : Option CoordinationPhase := none
  active_agents : List AgentInstance := []
  completed_agents : List String := []
  workflow_data : Data := []
  error_log : List ErrorEntry := []
  activity_log : List String := []
  checkpoints : List WorkflowCheckpoint := []
  updated_at : Nat := 0
  last_activity : Nat := 0
  is_paused : Bool := false
  pause_reason : Option String := none
deriving DecidableEq

/-- `update_timestamp`. -/
def update_timestamp (s : CoordinationSession) (now : Nat) : CoordinationSession :=
  { s with updated_at := now, last_activity := now }

/-- `log_activity`: append a stamped line, keep only the newest 1000 lines. -/
def log_activity (s : CoordinationSession) (message : String) (now : Nat) :
    CoordinationSession :=
  let log := s.activity_log ++ ["[" ++ toString now ++ "] " ++ message]
  let log := if 1000 < log.length then log.drop (log.length - 1000) else log
  { s with activity_log := log }

/-- The fixed legal-transition table of `transition_to_phase`. -/
def validTransitions : CoordinationPhase → List CoordinationPhase
  | .initialization => [.participant_collection]
  | .participant_collection => [.schedule_coordination]
  | .schedule_coordination => [.venue_coordination, .calendar_integration]
  | .venue_coordination => [.calendar_integration]
  | .calendar_integration => [.final_confirmation]
  | .final_confirmation => [.announcement]
  | .announcement => [.completed]
  | .completed => []

/-- The checkpoint record built by `create_checkpoint` from a session. -/
def checkpointOf (s : CoordinationSession) (description : String) (now : Nat) :
    WorkflowCheckpoint :=
  { phase := s.current_phase
    timestamp := now
    data_snapshot := s.workflow_data
    agent_states := s.active_agents.map (fun a =>
      (a.agent_name, ⟨a.status, a.progress_percentage, a.current_task⟩))
    decision_points := [description] }

/-- `create_checkpoint`: append the snapshot, then log the activity. -/
def create_checkpoint (s : CoordinationSession) (description : String) (now : Nat) :
    CoordinationSession :=
  log_activity { s with checkpoints := s.checkpoints ++ [checkpointOf s description now] }
    ("チェックポイント作成: " ++ description) now

/-- The description string `create_checkpoint` receives from
`transition_to_phase`. -/
def transitionDescription (oldPhase newPhase : CoordinationPhase) : String :=
  "フェーズ遷移: " ++ oldPhase.value ++ " → " ++ newPhase.value

/-- `transition_to_phase`: accept only pairs in the table; on acceptance set
`previous_phase` / `current_phase`, checkpoint, and stamp the timestamps. -/
def transition_to_phase (s : CoordinationSession) (new_phase : CoordinationPhase)
    (now : Nat) : Bool × CoordinationSession :=
  if new_phase ∈ validTransitions s.current_phase then
    let s1 := { s with previous_phase := some s.current_phase, current_phase := new_phase }
    let s2 := create_checkpoint s1 (transitionDescription s.current_phase new_phase) now
    (true, update_timestamp s2 now)
  else
    (false, s)

/-- `add_agent` (the returned uuid is omitted). -/
def add_agent (s : CoordinationSession) (agent_name : String) (now : Nat) :
    CoordinationSession :=
  update_timestamp
    (log_activity { s with active_agents := s.active_agents ++ [{ agent_name := agent_name }] }
      ("エージェント追加: " ++ agent_name) now) now

/-- The loop of `start_agent`: activate the first idle instance carrying the
name; `None` when no such instance exists. -/
def startFirst (agent_name : String) (task : Option String) (now : Nat) :
    List AgentInstance → Option (List AgentInstance)
  | [] => none
  | a :: rest =>
    if a.agent_name = agent_name ∧ a.status = AgentStatus.idle then
      some ({ a with
                status := .active
                started_at := some now
                last_heartbeat := some now
                current_task := if strTruthy task then task else a.current_task } :: rest)
    else
      (startFirst agent_name task now rest).map (a :: ·)

/-- `start_agent`. -/
def start_agent (s : CoordinationSession) (agent_name : String) (task : Option String)
    (now : Nat) : Bool × CoordinationSession :=
  match startFirst agent_name task now s.active_agents with
  | some agents =>
    (true, update_timestamp
      (log_activity { s with active_agents := agents }
        ("エージェント開始: " ++ agent_name ++ " - " ++ (task.getD "一般タスク")) now) now)
  | none => (false, s)

/-- The new `result_data` of a completed agent: assigned only when the passed
dict is truthy (`if result_data:`). -/
def completedResultData (old : Data) (result : Option Data) : Data :=
  if dataTruthy result then result.getD old else old

/-- The loop of `complete_agent`: complete the first active instance carrying
the name; `None` when no such instance exists. -/
def completeFirst (agent_name : String) (result : Option Data) (now : Nat) :
    List AgentInstance → Option (List AgentInstance)
  | [] => none
  | a :: rest =>
    if a.agent_name = agent_name ∧ a.status = AgentStatus.active then
      some ({ a with
                status := .completed
                completed_at := some now
                progress_percentage := 100
                result_data := completedResultData a.result_data result } :: rest)
    else
      (completeFirst agent_name result now rest).map (a :: ·)

/-- `complete_agent`. -/
def complete_agent (s : CoordinationSession) (agent_name : String)
    (result : Option Data) (now : Nat) : Bool × CoordinationSession :=
  match completeFirst agent_name result now s.active_agents with
  | some agents =>
    (true, update_timestamp
      (log_activity { s with
          active_agents := agents
          completed_agents := s.completed_agents ++ [agent_name] }
        ("エージェント完了: " ++ agent_name) now) now)
  | none => (false, s)

/-- `log_error`. -/
def log_error (s : CoordinationSession) (agent_name error_type error_message : String)
    (now : Nat) : CoordinationSession :=
  update_timestamp
    (log_activity { s with
        error_log := s.error_log ++
          [{ timestamp := now, agent_name := agent_name, error_type := error_type,
             error_message := error_message }] }
      ("エラー発生: " ++ agent_name ++ " - " ++ error_type ++ ": " ++ error_message) now) now

/-- The loop of `fail_agent`: mark the first instance carrying the name. -/
def failFirst (agent_name : String) : List AgentInstance → Option (List AgentInstance)
  | [] => none
  | a :: rest =>
    if a.agent_name = agent_name then
      some ({ a with status := .error, error_count := a.error_count + 1 } :: rest)
    else
      (failFirst agent_name rest).map (a :: ·)

/-- `fail_agent`. -/
def fail_agent (s : CoordinationSession) (agent_name error_message : String) (now : Nat) :
    Bool × CoordinationSession :=
  match failFirst agent_name s.active_agents with
  | some agents =>
    (true, update_timestamp
      (log_error { s with active_agents := agents } agent_name "AgentError" error_message now)
      now)
  | none => (false, s)

/-- The loop of `update_agent_progress` (first active instance of the name). -/
def progressFirst (agent_name : String) (progress : Nat) (task : Option String)
    (now : Nat) : List AgentInstance → Option (List AgentInstance)
  | [] => none
  | a :: rest =>
    if a.agent_name = agent_name ∧ a.status = AgentStatus.active then
      some ({ a with
                progress_percentage := progress
                last_heartbeat := some now
                current_task := if strTruthy task then task else a.current_task } :: rest)
    else
      (progressFirst agent_name progress task now rest).map (a :: ·)

/-- `update_agent_progress`.  A progress outside 0-100 raises in the pydantic
validator before any field is assigned, so the state is returned unchanged. -/
def update_agent_progress (s : CoordinationSession) (agent_name : String) (progress : Nat)
    (task : Option String) (now : Nat) : Bool × CoordinationSession :=
  if 100 < progress then (false, s)
  else
    match progressFirst agent_name progress task now s.active_agents with
    | some agents => (true, update_timestamp { s with active_agents := agents } now)
    | none => (false, s)

/-- `pause_session`. -/
def pause_session (s : CoordinationSession) (reason : String) (now : Nat) :
    CoordinationSession :=
  update_timestamp
    (log_activity { s with is_paused := true, pause_reason := some reason }
      ("セッション一時停止: " ++ reason) now) now

/-- `resume_session`. -/
def resume_session (s : CoordinationSession) (now : Nat) : CoordinationSession :=
  update_timestamp
    (log_activity { s with is_paused := false, pause_reason := none } "セッション再開" now) now

/-- One mutating operation of the `CoordinationSession` API, paired with the
clock value at which it runs. -/
inductive SessionOp where
  | transition (new_phase : CoordinationPhase)
  | addAgent (agent_name : String)
  | startAgent (agent_name : String) (task : Option String)
  | completeAgent (agent_name : String) (result : Option Data)
  | failAgent (agent_name error_message : String)
  | updateProgress (agent_name : String) (progress : Nat) (task : Option String)
  | logError (agent_name error_type error_message : String)
  | logActivity (message : String)
  | checkpoint (description : String)
  | pause (reason : String)
  | resume
  | touch

/-- Run one session operation (discarding the returned success flag). -/
def stepOp (s : CoordinationSession) : SessionOp → Nat → CoordinationSession
  | .transition p, now => (transition_to_phase s p now).2
  | .addAgent n, now => add_agent s n now
  | .startAgent n t, now => (start_agent s n t now).2
  | .completeAgent n r, now => (complete_agent s n r now).2
  | .failAgent n m, now => (fail_agent s n m now).2
  | .updateProgress n p t, now => (update_agent_progress s n p t now).2
  | .logError n t m, now => log_error s n t m now
  | .logActivity m, now => log_activity s m now
  | .checkpoint d, now => create_checkpoint s d now
  | .pause r, now => pause_session s r now
  | .resume, now => resume_session s now
  | .touch, now => update_timestamp s now

/-- Run a sequence of session operations. -/
def runOps (s : CoordinationSession) : List (SessionOp × Nat) → CoordinationSession
  | [] => s
  | (op, now) :: rest => runOps (stepOp s op now) rest

end Model

namespace Base

/-- Message types (`MessageType` in base_agent.py). -/
inductive MessageType where
  | command
  | query
  | response
  | event
  | status_update
  | error_report
  | heartbeat
deriving DecidableEq

/-- Message priorities (`MessagePriority` in base_agent.py). -/
inductive MessagePriority where
  | low
  | normal
  | high
  | urgent
deriving DecidableEq

/-- `AgentMessage` of base_agent.py (uuid id omitted; `user_context` folded
into the payload association list). -/
structure AgentMessage where
  sender_id : String
  recipient_id : Option String := none
  message_type : MessageType
  priority : MessagePriority := .normal
  subject : String
  payload : Data := []
  correlation_id : Option String := none
  timestamp : Nat := 0
  expires_at : Option Nat := none
  retry_count : Nat := 0
  event_id : Option String := none
  session_id : Option String := none
deriving DecidableEq

/-- `AgentMessage.is_expired`: strictly past the optional expiry. -/
def AgentMessage.is_expired (m : AgentMessage) (now : Nat) : Bool :=
  match m.expires_at with
  | none => false
  | some t => t < now

/-- `AgentMetrics` of base_agent.py. -/
structure AgentMetrics where
  messages_sent : Nat := 0
  messages_received : Nat := 0
  errors_count : Nat := 0
  total_processing_time_ms : Nat := 0
  last_activity : Option Nat := none
deriving DecidableEq

def AgentMetrics.record_message_sent (m : AgentMetrics) (now : Nat) : AgentMetrics :=
  { m with messages_sent := m.messages_sent + 1, last_activity := some now }

def AgentMetrics.record_message_received (m : AgentMetrics) (now : Nat) : AgentMetrics :=
  { m with messages_received := m.messages_received + 1, last_activity := some now }

def AgentMetrics.record_error (m : AgentMetrics) (now : Nat) : AgentMetrics :=
  { m with errors_count := m.errors_count + 1, last_activity := some now }

def AgentMetrics.record_processing_time (m : AgentMetrics) (dt : Nat) (now : Nat) :
    AgentMetrics :=
  { m with total_processing_time_ms := m.total_processing_time_ms + dt,
           last_activity := some now }

/-- The substrate-visible state of a `BaseAgent`: identity, metrics, the
pending-message buffer and the attached bus (modelled as the list of messages
published on it; `has_bus := false` means no bus is attached). -/
structure AgentState where
  agent_id : String
  event_id : Option String := none
  session_id : Option String := none
  metrics : AgentMetrics := {}
  pending_messages : List AgentMessage := []
  has_bus : Bool := false
  published : List AgentMessage := []
deriving DecidableEq

/-- The stamping prefix of `send_message`: the sender id is overwritten
unconditionally (`message.sender_id = self.agent_id`); the event and session
ids are filled only when the message's field is falsy and the agent has a
truthy one. -/
def stampMessage (a : AgentState) (m : AgentMessage) : AgentMessage :=
  let m := { m with sender_id := a.agent_id }
  let m := if !strTruthy m.event_id && strTruthy a.event_id then
    { m with event_id := a.event_id } else m
  if !strTruthy m.session_id && strTruthy a.session_id then
    { m with session_id := a.session_id } else m

/-- `send_message`: stamp, then publish on the bus when one is attached,
otherwise append to the pending queue; record the send in the metrics. -/
def send_message (a : AgentState) (m : AgentMessage) (now : Nat) : AgentState :=
  let m := stampMessage a m
  let a := if a.has_bus then { a with published := a.published ++ [m] }
           else { a with pending_messages := a.pending_messages ++ [m] }
  { a with metrics := a.metrics.record_message_sent now }

/-- Outcome of running a registered handler: a normal return (possibly with a
response message) or a raised exception carrying its message. -/
inductive HandlerResult where
  | ok (response : Option AgentMessage)
  | raised (error_message : String)

/-- The handler table: at most one handler per message type. -/
abbrev HandlerMap := MessageType → Option (AgentMessage → HandlerResult)

/-- `report_error` (as called from `_handle_error`): broadcast an ERROR_REPORT
message built from the exception and count the error. -/
def report_error (a : AgentState) (error_message : String) (now : Nat) : AgentState :=
  let a := send_message a
    { sender_id := a.agent_id
      message_type := .error_report
      subject := "エラー報告"
      payload := [("error_message", error_message)] } now
  { a with metrics := a.metrics.record_error now }

/-- `handle_message`, instrumented with the list of message types whose
handler was actually invoked.  Expired messages are dropped before the
receive counter is touched; a missing handler is logged and ignored; a
handler exception is caught here and routed through `_handle_error`. -/
def handle_message (a : AgentState) (handlers : HandlerMap) (m : AgentMessage)
    (now : Nat) (dt : Nat) : Option AgentMessage × AgentState × List MessageType :=
  if m.is_expired now then
    (none, a, [])
  else
    let a := { a with metrics := a.metrics.record_message_received now }
    match handlers m.message_type with
    | some h =>
      match h m with
      | .ok response =>
        (response, { a with metrics := a.metrics.record_processing_time dt now },
          [m.message_type])
      | .raised e => (none, report_error a e now, [m.message_type])
    | none => (none, a, [])

end Base

namespace Model

/-- `EventType` of models/event.py. -/
inductive EventType where
  | dining
  | study
  | meeting
deriving DecidableEq

/-- `TimeSlot` of models/participant.py.  Times are minutes on a common
timeline; the 1-3 preference level is a plain `Nat` (its pydantic validator
rejects other values at construction). -/
structure TimeSlot where
  start_time : Nat
  end_time : Nat
  preference_level : Nat := 1
deriving DecidableEq

/-- The calendar hour of a time expressed in minutes. -/
def hourOf (t : Nat) : Nat := t / 60 % 24

end Model

namespace Sched

open Model

/-- `ScheduleOption` of scheduling_agent.py (uuid id omitted, scores in ℚ). -/
structure ScheduleOption where
  start_time : Nat
  end_time : Nat
  available_participants : List String
  unavailable_participants : List String
  preference_score : ℚ
  conflict_score : ℚ
  total_score : ℚ
  reasoning : String
deriving DecidableEq

/-- `TimeSlotAnalysis` of scheduling_agent.py. -/
structure TimeSlotAnalysis where
  time_slot : TimeSlot
  participants_available : List String
  participants_unavailable : List String
  preference_weights : List (String × ℚ)
  conflict_details : List String
deriving DecidableEq

/-- `get_availability_score` on a `TimeSlotAnalysis`. -/
def TimeSlotAnalysis.get_availability_score (a : TimeSlotAnalysis) : ℚ :=
  let total := a.participants_available.length + a.participants_unavailable.length
  if total = 0 then 0 else (a.participants_available.length : ℚ) / total

/-- `_slots_overlap`. -/
def slots_overlap (slot1 slot2 : TimeSlot) : Bool :=
  !(slot1.end_time ≤ slot2.start_time || slot2.end_time ≤ slot1.start_time)

/-- `_slot_fully_contains`. -/
def slot_fully_contains (container contained : TimeSlot) : Bool :=
  container.start_time ≤ contained.start_time && contained.end_time ≤ container.end_time

/-- The per-participant availability test of `_analyze_single_time_slot`:
some declared slot overlaps the candidate. -/
def participantAvailable (slot : TimeSlot) (user_slots : List TimeSlot) : Bool :=
  user_slots.any (fun u => slots_overlap slot u)

/-- The per-participant running maximum of `preference_level` over the
participant's overlapping slots (starting from 0, as in the source). -/
def participantMaxPreference (slot : TimeSlot) (user_slots : List TimeSlot) : Nat :=
  user_slots.foldl (fun m u => if slots_overlap slot u then max m u.preference_level else m) 0

/-- The conflict-detail lines one participant contributes: one line per
declared slot that overlaps the candidate without fully containing it. -/
def participantConflicts (slot : TimeSlot) (user_id : String)
    (user_slots : List TimeSlot) : List String :=
  user_slots.filterMap (fun u =>
    if slots_overlap slot u && !slot_fully_contains u slot then
      some (user_id ++ ": 部分的な重複 (" ++ toString u.start_time ++ " - " ++
        toString u.end_time ++ ")")
    else none)

/-- `_analyze_single_time_slot`: classify each participant (in declaration
order) as available or unavailable, recording the normalized best preference
of the available ones and all partial-overlap conflict details. -/
def analyze_single_time_slot (slot : TimeSlot)
    (participant_time_slots : List (String × List TimeSlot)) : TimeSlotAnalysis :=
  match participant_time_slots with
  | [] =>
    { time_slot := slot, participants_available := [], participants_unavailable := [],
      preference_weights := [], conflict_details := [] }
  | (user_id, user_slots) :: rest =>
    let r := analyze_single_time_slot slot rest
    let conflicts := participantConflicts slot user_id user_slots
    if participantAvailable slot user_slots then
      { r with
          participants_available := user_id :: r.participants_available
          preference_weights :=
            (user_id, (participantMaxPreference slot user_slots : ℚ) / 3) ::
              r.preference_weights
          conflict_details := conflicts ++ r.conflict_details }
    else
      { r with
          participants_unavailable := user_id :: r.participants_unavailable
          conflict_details := conflicts ++ r.conflict_details }

/-- `_analyze_time_slots`, parameterized by the candidate slots (their
generation in `_generate_potential_time_slots` reads the wall clock). -/
def analyze_time_slots (slots : List TimeSlot)
    (participant_time_slots : List (String × List TimeSlot)) : List TimeSlotAnalysis :=
  slots.map (fun slot => analyze_single_time_slot slot participant_time_slots)

/-- The `preferred_hours` entry of `event_type_preferences`. -/
def preferred_hours : EventType → List Nat
  | .dining => [12, 13, 18, 19, 20]
  | .study => [10, 11, 14, 15, 16]
  | .meeting => [9, 10, 11, 14, 15, 16]

/-- The `duration_minutes` entry of `event_type_preferences`. -/
def type_duration_minutes : EventType → Nat
  | .dining => 90
  | .study => 120
  | .meeting => 60

/-- `_calculate_preference_score`: the mean of the recorded weights, 0 when
there are none. -/
def calculate_preference_score (a : TimeSlotAnalysis) : ℚ :=
  if a.preference_weights.isEmpty then 0
  else (a.preference_weights.map (·.2)).sum / (a.preference_weights.length : ℚ)

/-- `_calculate_conflict_score`: 0 without conflict details, otherwise the
detail count over the participant count, capped at 1. -/
def calculate_conflict_score (a : TimeSlotAnalysis) : ℚ :=
  if a.conflict_details.isEmpty then 0
  else
    let total := a.participants_available.length + a.participants_unavailable.length
    if total = 0 then 1
    else min ((a.conflict_details.length : ℚ) / (total : ℚ)) 1

/-- `_calculate_event_type_fitness`: 1 on a preferred hour, otherwise decay
linearly with the distance to the nearest preferred hour (12h normalization). -/
def calculate_event_type_fitness (et : EventType) (slot : TimeSlot) : ℚ :=
  let hour := hourOf slot.start_time
  if hour ∈ preferred_hours et then 1
  else
    let dists := (preferred_hours et).map (fun p => ((hour : ℤ) - (p : ℤ)).natAbs)
    let min_distance := dists.foldr min (12 * 2)
    max 0 (1 - (min_distance : ℚ) / 12)

/-- `_create_schedule_option` (its reasoning string is built from the score
buckets of `_generate_schedule_reasoning`; the claims do not inspect it, so it
is recorded as a fixed label). -/
def create_schedule_option (et : EventType) (a : TimeSlotAnalysis) : ScheduleOption :=
  let preference_score := calculate_preference_score a
  let conflict_score := calculate_conflict_score a
  let attendance_rate := a.get_availability_score
  let type_fitness := calculate_event_type_fitness et a.time_slot
  { start_time := a.time_slot.start_time
    end_time := a.time_slot.end_time
    available_participants := a.participants_available
    unavailable_participants := a.participants_unavailable
    preference_score := preference_score
    conflict_score := conflict_score
    total_score := preference_score * (3/10) + (1 - conflict_score) * (2/10) +
      attendance_rate * (3/10) + type_fitness * (2/10)
    reasoning := "スケジュール選択理由" }

/-- The descending-by-total-score order used by `_optimize_schedule`'s
`sort(key=..., reverse=True)`. -/
def scoreGe (a b : ScheduleOption) : Prop := b.total_score ≤ a.total_score

instance : DecidableRel scoreGe := fun a b =>
  inferInstanceAs (Decidable (b.total_score ≤ a.total_score))

instance : IsTotal ScheduleOption scoreGe :=
  ⟨fun a b => le_total b.total_score a.total_score⟩

instance : IsTrans ScheduleOption scoreGe :=
  ⟨fun _ _ _ h1 h2 => le_trans h2 h1⟩

/-- `_optimize_schedule`: keep only analyses with at least two available
participants, score them, sort stably by descending total score, keep the
top 5. -/
def optimize_schedule (et : EventType) (slots : List TimeSlot)
    (participant_time_slots : List (String × List TimeSlot)) : List ScheduleOption :=
  let options :=
    ((analyze_time_slots slots participant_time_slots).filter
      (fun a => 2 ≤ a.participants_available.length)).map (create_schedule_option et)
  (List.insertionSort scoreGe options).take 5

/-- `_select_best_schedule`: the automatic pick is the option at index 0 when
the list is non-empty, and nothing otherwise. -/
def select_best_schedule (options : List ScheduleOption) : Option ScheduleOption :=
  options.head?

end Sched

namespace Model

/-- `BookingStatus` of models/venue.py. -/
inductive BookingStatus where
  | pending
  | confirmed
  | failed
  | manual_required
deriving DecidableEq

/-- `VenueType` of models/venue.py (the values the venue agent uses). -/
inductive VenueType where
  | restaurant
  | cafe
  | meeting_room
  | external_venue
deriving DecidableEq

/-- `VenueFeature` of models/venue.py. -/
structure VenueFeature where
  feature_name : String
  available : Bool := true
deriving DecidableEq

/-- `Venue` of models/venue.py (the fields `calculate_suitability_score` and
the venue agent's fallback tier read or write; uuid / geo / API-id fields
omitted, money in whole yen, rating in ℚ). -/
structure Venue where
  event_id : String
  venue_type : VenueType
  name : String
  address : String
  capacity : Nat
  minimum_capacity : Option Nat := none
  estimated_cost_per_person : Option Nat := none
  features : List VenueFeature := []
  rating : Option ℚ := none
  booking_status : BookingStatus := .pending
  admin_notes : Option String := none
deriving DecidableEq

/-- `Venue.has_feature`: a case-insensitive name match on an available
feature. -/
def Venue.has_feature (v : Venue) (feature_name : String) : Bool :=
  v.features.any (fun f => f.feature_name.toLower == feature_name.toLower && f.available)

/-- Python truthiness of an `Optional[int]`: `None` and `0` are falsy. -/
def natTruthy : Option Nat → Bool
  | none => false
  | some n => !(n == 0)

/-- `Venue.calculate_suitability_score`: the weighted capacity (40%), budget
(30%), feature (20%) and rating (10%) fit, clamped to [0, 1]. -/
def Venue.calculate_suitability_score (v : Venue) (participant_count : Nat)
    (budget_per_person : Option Nat) (required_features : List String) : ℚ :=
  let capacity_score : ℚ :=
    if natTruthy v.minimum_capacity ∧ participant_count < v.minimum_capacity.getD 0 then 0
    else if v.capacity < participant_count then 0
    else
      let utilization : ℚ := (participant_count : ℚ) / (v.capacity : ℚ)
      if 7/10 ≤ utilization ∧ utilization ≤ 8/10 then 1
      else if utilization < 7/10 then utilization / (7/10)
      else max 0 (1 - (utilization - 8/10) / (2/10))
  let budget_score : ℚ :=
    if natTruthy budget_per_person ∧ natTruthy v.estimated_cost_per_person then
      if v.estimated_cost_per_person.getD 0 ≤ budget_per_person.getD 0 then 1
      else
        let over_ratio : ℚ :=
          (v.estimated_cost_per_person.getD 0 : ℚ) / (budget_per_person.getD 0 : ℚ)
        max 0 (1 - (over_ratio - 1))
    else 1
  let feature_score : ℚ :=
    if required_features.isEmpty then 1
    else
      ((required_features.filter (fun f => v.has_feature f)).length : ℚ) /
        (required_features.length : ℚ)
  let rating_score : ℚ :=
    match v.rating with
    | some r => if r = 0 then 1/2 else (r - 1) / 4
    | none => 1/2
  let score := capacity_score * (4/10) + budget_score * (3/10) +
    feature_score * (2/10) + rating_score * (1/10)
  min 1 (max 0 score)

end Model

namespace VenueA

open Model

/-- `VenueSearchCriteria` of venue_agent.py. -/
structure VenueSearchCriteria where
  event_type : EventType
  participant_count : Nat
  event_datetime : Nat
  duration_minutes : Nat
  budget_per_person : Option Nat := none
  location_hint : String := "東京"
  required_features : List String := []
  accessibility_required : Bool := false
deriving DecidableEq

/-- `VenueSearchResult` of venue_agent.py. -/
structure VenueSearchResult where
  venue : Venue
  source_api : String
  suitability_score : ℚ
  availability_confirmed : Bool := false
  booking_required : Bool := true
  estimated_total_cost : Option Nat := none
  notes : List String := []
deriving DecidableEq

/-- `APIFailureRecord` of venue_agent.py. -/
structure APIFailureRecord where
  api_name : String
  failure_time : Nat
  error_type : String
  error_message : String
  retry_count : Nat := 0
deriving DecidableEq

/-- The agent state `_should_use_api` and `_search_venues` read. -/
structure VenueAgentState where
  event_type : EventType
  api_failures : List APIFailureRecord := []
  google_places_api_key : Option String := none
  gurume_api_key : Option String := none
deriving DecidableEq

/-- The `gurume_categories` entry of `search_settings` per event type. -/
def gurume_categories : EventType → List String
  | .dining => ["RSFST08000", "RSFST09000"]
  | .study => []
  | .meeting => []

/-- The failure records of one source younger than 300 seconds. -/
def recentFailures (st : VenueAgentState) (api_name : String) (now : Nat) :
    List APIFailureRecord :=
  st.api_failures.filter (fun f => f.api_name = api_name ∧ now - f.failure_time < 300)

/-- `_should_use_api`: skip a source after 3 failures inside the trailing five
minutes, when its key is missing, or when the static per-event-type rules
exclude it (no gurume categories for the event type). -/
def should_use_api (st : VenueAgentState) (api_name : String) (now : Nat) : Bool :=
  if 3 ≤ (recentFailures st api_name now).length then false
  else if api_name = "google_places" ∧ !strTruthy st.google_places_api_key then false
  else if api_name = "gurume" ∧ !strTruthy st.gurume_api_key then false
  else if api_name = "gurume" ∧ (gurume_categories st.event_type).isEmpty then false
  else true

/-- The sources one round of `_search_venues` actually queries (the task list
built from the two `_should_use_api` guards). -/
def searched_sources (st : VenueAgentState) (now : Nat) : List String :=
  (if should_use_api st "google_places" now then ["google_places"] else []) ++
    (if should_use_api st "gurume" now then ["gurume"] else [])

/-- The fixed manual-fallback venue list of `_fallback_search`. -/
def fallback_venues (event_id : String) : List Venue :=
  [{ event_id := event_id
     venue_type := .meeting_room
     name := "会議室A（フォールバック）"
     address := "東京都千代田区"
     capacity := 20
     estimated_cost_per_person := some 2000
     booking_status := .manual_required
     admin_notes := some "API検索失敗のためフォールバック候補。手動確認が必要。" },
   { event_id := event_id
     venue_type := .restaurant
     name := "カフェB（フォールバック）"
     address := "東京都港区"
     capacity := 15
     estimated_cost_per_person := some 1500
     booking_status := .manual_required
     admin_notes := some "API検索失敗のためフォールバック候補。手動確認が必要。" }]

/-- `_fallback_search`: wrap each fixed candidate with a 0.7-penalized
suitability score and the manual-confirmation flags. -/
def fallback_search (event_id : String) (c : VenueSearchCriteria) :
    List VenueSearchResult :=
  (fallback_venues event_id).map (fun v =>
    { venue := v
      source_api := "manual_fallback"
      suitability_score :=
        v.calculate_suitability_score c.participant_count c.budget_per_person
          c.required_features * (7/10)
      booking_required := true
      notes := ["手動確認が必要", "API検索失敗のためのフォールバック候補"] })

/-- The merged result set of one round of `_search_venues`, parameterized by
what each external source would yield this round (a failed call contributes
the empty list, since `_search_google_places` / `_search_gurume` catch their
own exceptions and return what they gathered so far). -/
def merged_results (st : VenueAgentState) (now : Nat)
    (google_results gurume_results : List VenueSearchResult) :
    List VenueSearchResult :=
  (if should_use_api st "google_places" now then google_results else []) ++
    (if should_use_api st "gurume" now then gurume_results else [])

/-- `_search_venues`: query the eligible sources, merge, and fall back to the
manual tier when the merge is empty. -/
def search_venues (st : VenueAgentState) (event_id : String) (c : VenueSearchCriteria)
    (now : Nat) (google_results gurume_results : List VenueSearchResult) :
    List VenueSearchResult :=
  if (merged_results st now google_results gurume_results).isEmpty then
    fallback_search event_id c
  else
    merged_results st now google_results gurume_results

end VenueA

namespace Coord

open Model

/-- Replace the element at an index of a list (identity out of range). -/
def listModify (l : List AgentInstance) (i : Nat) (f : AgentInstance → AgentInstance) :
    List AgentInstance :=
  match l, i with
  | [], _ => []
  | a :: rest, 0 => f a :: rest
  | a :: rest, Nat.succ j => a :: listModify rest j f

/-- Find the binding of a name in an association list (first match). -/
def assocFind (m : List (String × Nat)) (name : String) : Option Nat :=
  match m with
  | [] => none
  | (k, v) :: rest => if k = name then some v else assocFind rest name

/-- The coordination agent's mutable state around `_start_agent`: the owned
session plus `managed_agents`.  In the source `managed_agents[name]` aliases
an entry of `session.active_agents` (registration appends the same object to
both), so it is modelled as a map from names to indices into that list; a
re-registration prepends a newer binding. -/
structure CoordState where
  session : CoordinationSession
  managed : List (String × Nat) := []
deriving DecidableEq

/-- The static `agent_dependencies` table (`.get(name, [])` semantics). -/
def agent_dependencies (name : String) : List String :=
  if name = "participant_agent" then []
  else if name = "scheduling_agent" then ["participant_agent"]
  else if name = "venue_agent" then ["scheduling_agent"]
  else if name = "calendar_agent" then ["scheduling_agent", "venue_agent"]
  else []

/-- The status of the managed instance at an index (defaulting to idle when
the index is stale; the theorems carry validity hypotheses). -/
def statusAt (st : CoordState) (i : Nat) : AgentStatus :=
  ((st.session.active_agents.get? i).map (·.status)).getD .idle

/-- Verdict of the dependency loop in `_start_agent`. -/
inductive DepCheck where
  | missing
  | waitingOn
  | allCompleted
deriving DecidableEq

/-- The dependency loop of `_start_agent`: in declaration order, fail on the
first unregistered dependency, or report the first whose status is not
completed. -/
def checkDeps (st : CoordState) : List String → DepCheck
  | [] => .allCompleted
  | d :: rest =>
    match assocFind st.managed d with
    | none => .missing
    | some i =>
      if statusAt st i = AgentStatus.completed then checkDeps st rest else .waitingOn

/-- `_handle_agent_registration` (the session-persistence call and the
response message are outside the session model): append a fresh idle
instance and bind the name to it in `managed_agents`. -/
def register_agent (st : CoordState) (name : String) : CoordState :=
  { st with
      session := { st.session with
        active_agents := st.session.active_agents ++ [{ agent_name := name }] }
      managed := (name, st.session.active_agents.length) :: st.managed }

/-- `CoordinationAgent._start_agent`: fail on an unregistered agent; fail on
an unregistered dependency; mark the agent waiting and fail when a dependency
is not completed; otherwise delegate to `CoordinationSession.start_agent`
(which succeeds only on an idle tracked instance). -/
def coordStartAgent (st : CoordState) (name : String) (task : Option String)
    (now : Nat) : Bool × CoordState :=
  match assocFind st.managed name with
  | none => (false, st)
  | some idx =>
    match checkDeps st (agent_dependencies name) with
    | .missing => (false, st)
    | .waitingOn =>
      (false, { st with
        session := { st.session with
          active_agents := listModify st.session.active_agents idx
            (fun a => { a with status := .waiting }) } })
    | .allCompleted =>
      let r := Model.start_agent st.session name task now
      (r.1, { st with session := r.2 })

end Coord

namespace SchedSpec

open Model

/-!  Spec-side restatement of the C5 scoring formula, written from the
claim's words, to be compared against the optimizer embedded above.  -/

/-- The available participants of a candidate slot: those with at least one
overlapping declared slot. -/
def availableParticipants (slot : TimeSlot) (pts : List (String × List TimeSlot)) :
    List (String × List TimeSlot) :=
  pts.filter (fun p => Sched.participantAvailable slot p.2)

/-- The participants with no overlapping declared slot. -/
def unavailableParticipants (slot : TimeSlot)
    (pts : List (String × List TimeSlot)) : List (String × List TimeSlot) :=
  pts.filter (fun p => !Sched.participantAvailable slot p.2)

/-- preference: the mean over available participants of
(best matching preference level ÷ 3). -/
def preference (slot : TimeSlot) (pts : List (String × List TimeSlot)) : ℚ :=
  ((availableParticipants slot pts).map
    (fun p => (Sched.participantMaxPreference slot p.2 : ℚ) / 3)).sum /
    ((availableParticipants slot pts).length : ℚ)

/-- conflictDetailCount: the total number of partial-overlap detail entries
contributed across all participants. -/
def conflictDetailCount (slot : TimeSlot)
    (pts : List (String × List TimeSlot)) : Nat :=
  ((pts.map (fun p => Sched.participantConflicts slot p.1 p.2)).flatten).length

/-- conflict = min(1, conflictDetailCount / totalParticipants). -/
def conflict (slot : TimeSlot) (pts : List (String × List TimeSlot)) : ℚ :=
  min 1 ((conflictDetailCount slot pts : ℚ) / (pts.length : ℚ))

/-- attendance = available / (available + unavailable). -/
def attendance (slot : TimeSlot) (pts : List (String × List TimeSlot)) : ℚ :=
  ((availableParticipants slot pts).length : ℚ) /
    ((availableParticipants slot pts).length + (unavailableParticipants slot pts).length : ℚ)

/-- typeFit = 1.0 on a preferred start hour, else
max(0, 1 − minHourDistance / 12). -/
def typeFit (et : EventType) (slot : TimeSlot) : ℚ :=
  if hourOf slot.start_time ∈ Sched.preferred_hours et then 1
  else
    let dists := (Sched.preferred_hours et).map
      (fun p => ((hourOf slot.start_time : ℤ) - (p : ℤ)).natAbs)
    let minHourDistance := dists.foldr min (12 * 2)
    max 0 (1 - (minHourDistance : ℚ) / 12)

end SchedSpec

/-!  ### Concrete states used by witnesses and counterexamples  -/

/-- A coordination state where "venue_agent" is tracked as waiting (from an
earlier refused start) while its dependency "scheduling_agent" is completed. -/
def stWaitingVenue : Coord.CoordState :=
  { session :=
      { event_id := "event-4",
        active_agents :=
          [{ agent_name := "scheduling_agent", status := .completed },
           { agent_name := "venue_agent", status := .waiting }] },
    managed := [("scheduling_agent", 0), ("venue_agent", 1)] }

/-- Scenario B of the spec: "venue_agent" is idle and its dependency
"scheduling_agent" is still active. -/
def stScenarioB : Coord.CoordState :=
  { session :=
      { event_id := "event-5",
        active_agents :=
          [{ agent_name := "scheduling_agent", status := .active },
           { agent_name := "venue_agent", status := .idle }] },
    managed := [("scheduling_agent", 0), ("venue_agent", 1)] }


/-- Scenario D of the spec: a session at phase Announcement. -/
def sessionAtAnnouncement : Model.CoordinationSession :=
  { event_id := "event-1", current_phase := .announcement }

/-- An expired heartbeat message: sent with expiry 5, handled at time 10. -/
def expiredMessage : Base.AgentMessage :=
  { sender_id := "peer", message_type := .heartbeat, subject := "ハートビート",
    expires_at := some 5 }

/-- An agent and a message that already carries a non-empty sender id. -/
def agentA : Base.AgentState := { agent_id := "agent-A" }

def messageFromB : Base.AgentMessage :=
  { sender_id := "agent-B", message_type := .command, subject := "cmd" }

/-- A busless agent carrying event and session ids, and a message that
already carries its own session id. -/
def agentW : Base.AgentState :=
  { agent_id := "agent-W", event_id := some "ev-1", session_id := some "se-1" }

def messageW : Base.AgentMessage :=
  { sender_id := "other", message_type := .event, subject := "n",
    session_id := some "se-9" }

/-- A session with a single active agent instance. -/
def sessionOneActive : Model.CoordinationSession :=
  { event_id := "event-2",
    active_agents := [{ agent_name := "scheduling_agent", status := .active }] }

/-- A fresh session with one idle agent, used for the C2 witness. -/
def sessionInit : Model.CoordinationSession :=
  { event_id := "event-3",
    active_agents := [{ agent_name := "participant_agent" }] }

/-- One candidate dining slot (Tuesday 18:00-19:30 as minutes). -/
def slotA : Model.TimeSlot := { start_time := 1080, end_time := 1170, preference_level := 2 }

/-- Two participants whose declared slots cover the candidate. -/
def ptsA : List (String × List Model.TimeSlot) :=
  [("u1", [{ start_time := 1080, end_time := 1200, preference_level := 1 }]),
   ("u2", [{ start_time := 1080, end_time := 1200, preference_level := 1 }])]

/-- A round in which both sources are skipped: no API key is configured. -/
def stNoKeys : VenueA.VenueAgentState := { event_type := .dining }

def criteriaDining : VenueA.VenueSearchCriteria :=
  { event_type := .dining, participant_count := 5, event_datetime := 0,
    duration_minutes := 120, budget_per_person := some 3000,
    required_features := ["食事提供"] }

/-- Scenario C of the spec: source "google_places" has failed three times
inside the trailing five minutes; the gurume source is configured and
allowed for a dining event. -/
def stScenarioC : VenueA.VenueAgentState :=
  { event_type := .dining
    api_failures :=
      [{ api_name := "google_places", failure_time := 100, error_type := "Timeout",
         error_message := "t1" },
       { api_name := "google_places", failure_time := 150, error_type := "Timeout",
         error_message := "t2" },
       { api_name := "google_places", failure_time := 200, error_type := "Timeout",
         error_message := "t3" }]
    google_places_api_key := some "key-g"
    gurume_api_key := some "key-r" }

/-!  ## Theorems  -/

/-- C1: for every session state and target phase, a transition whose
(current phase, target phase) pair is not in the fixed legal-transition table
returns failure and leaves the session unchanged — in particular
`current_phase`, `previous_phase` and the checkpoint list are exactly as
before the call. -/
theorem claim_C1 (s : Model.CoordinationSession) (p : Model.CoordinationPhase)
    (now : Nat) (h : p ∉ Model.validTransitions s.current_phase) :
    (Model.transition_to_phase s p now).1 = false ∧
      (Model.transition_to_phase s p now).2.current_phase = s.current_phase ∧
      (Model.transition_to_phase s p now).2.previous_phase = s.previous_phase ∧
      (Model.transition_to_phase s p now).2.checkpoints = s.checkpoints ∧
      (Model.transition_to_phase s p now).2 = s := by
  simp [Model.transition_to_phase, h]

/-- Witness for C1 (Scenario D): Announcement → ParticipantCollection is
rejected and the phase remains Announcement. -/
theorem claim_C1_witness :
    Model.CoordinationPhase.participant_collection ∉
      Model.validTransitions sessionAtAnnouncement.current_phase ∧
    (Model.transition_to_phase sessionAtAnnouncement .participant_collection 7).1 = false ∧
      (Model.transition_to_phase sessionAtAnnouncement .participant_collection 7).2.current_phase =
        sessionAtAnnouncement.current_phase ∧
      (Model.transition_to_phase sessionAtAnnouncement .participant_collection 7).2.previous_phase =
        sessionAtAnnouncement.previous_phase ∧
      (Model.transition_to_phase sessionAtAnnouncement .participant_collection 7).2.checkpoints =
        sessionAtAnnouncement.checkpoints ∧
      (Model.transition_to_phase sessionAtAnnouncement .participant_collection 7).2 =
        sessionAtAnnouncement :=
  ⟨by decide, claim_C1 sessionAtAnnouncement .participant_collection 7 (by decide)⟩

/-- C3: a message with an expiry strictly in the past is dropped by
`handle_message`: no registered handler is invoked (the invocation trace is
empty), no response is produced, the agent state — in particular the receive
counter — is untouched. -/
theorem claim_C3 (a : Base.AgentState) (handlers : Base.HandlerMap)
    (m : Base.AgentMessage) (now dt t : Nat) (he : m.expires_at = some t)
    (hlt : t < now) :
    Base.handle_message a handlers m now dt = (none, a, []) ∧
    (Base.handle_message a handlers m now dt).2.1.metrics.messages_received =
      a.metrics.messages_received := by
  have h : Base.handle_message a handlers m now dt = (none, a, []) := by
    simp [Base.handle_message, Base.AgentMessage.is_expired, he, hlt]
  exact ⟨h, by rw [h]⟩

/-- Witness for C3: a concrete expired message is dropped even though a
handler for its type is registered. -/
theorem claim_C3_witness :
    expiredMessage.expires_at = some 5 ∧ 5 < 10 ∧
    (Base.handle_message { agent_id := "agent-A" }
        (fun _ => some (fun _ => .ok none)) expiredMessage 10 3 =
      (none, { agent_id := "agent-A" }, []) ∧
    (Base.handle_message { agent_id := "agent-A" }
        (fun _ => some (fun _ => .ok none)) expiredMessage 10 3).2.1.metrics.messages_received =
      ({ agent_id := "agent-A" } : Base.AgentState).metrics.messages_received) :=
  ⟨rfl, by decide,
    claim_C3 { agent_id := "agent-A" } (fun _ => some (fun _ => .ok none))
      expiredMessage 10 3 5 rfl (by decide)⟩

/-- Counterexample to C9 as stated: `send_message` overwrites a non-empty
`sender_id` unconditionally (`message.sender_id = self.agent_id` runs before
the absence checks), so the buffered message carries the agent's id, not the
original non-empty one. -/
theorem claim_C9_counterexample :
    messageFromB.sender_id = "agent-B" ∧ messageFromB.sender_id ≠ "" ∧
    agentA.has_bus = false ∧
    (Base.send_message agentA messageFromB 0).pending_messages.map (·.sender_id) =
      ["agent-A"] ∧
    ¬((Base.send_message agentA messageFromB 0).pending_messages.map (·.sender_id) =
      [messageFromB.sender_id]) := by
  refine ⟨rfl, by decide, rfl, ?_, ?_⟩ <;> decide

/-- C9 (amended): `send` always overwrites `sender_id` with the sending
agent's id; it stamps `event_id` and `session_id` only when they are absent
(Python-falsy) and the agent has one, leaving already-present values
unchanged; and with no bus attached the stamped message is appended to the
pending queue and nothing is published. -/
theorem claim_C9_amended (a : Base.AgentState) (m : Base.AgentMessage) (now : Nat)
    (hbus : a.has_bus = false) :
    (Base.send_message a m now).pending_messages =
      a.pending_messages ++ [Base.stampMessage a m] ∧
    (Base.send_message a m now).published = a.published ∧
    (Base.stampMessage a m).sender_id = a.agent_id ∧
    (strTruthy m.event_id = true → (Base.stampMessage a m).event_id = m.event_id) ∧
    (strTruthy m.session_id = true → (Base.stampMessage a m).session_id = m.session_id) ∧
    (strTruthy m.event_id = false → strTruthy a.event_id = true →
      (Base.stampMessage a m).event_id = a.event_id) ∧
    (strTruthy m.session_id = false → strTruthy a.session_id = true →
      (Base.stampMessage a m).session_id = a.session_id) := by
  cases he : strTruthy m.event_id <;> cases ha : strTruthy a.event_id <;>
    cases hs : strTruthy m.session_id <;> cases has : strTruthy a.session_id <;>
      simp [Base.send_message, Base.stampMessage, hbus, he, ha, hs, has]

/-- C7: whenever the merged result set of the external sources is empty
(every source failed or was skipped), the search returns exactly the fixed
manual-fallback candidate list; every returned candidate requires booking,
carries the manual-confirmation note, has booking status `manual_required`,
and scores exactly 0.7 times the suitability score its venue would otherwise
receive. -/
theorem claim_C7 (st : VenueA.VenueAgentState) (ev : String)
    (c : VenueA.VenueSearchCriteria) (now : Nat)
    (gp gr : List VenueA.VenueSearchResult)
    (h : VenueA.merged_results st now gp gr = []) :
    VenueA.search_venues st ev c now gp gr = VenueA.fallback_search ev c ∧
    ∀ r ∈ VenueA.search_venues st ev c now gp gr,
      r.booking_required = true ∧
      "手動確認が必要" ∈ r.notes ∧
      r.venue.booking_status = Model.BookingStatus.manual_required ∧
      r.suitability_score =
        r.venue.calculate_suitability_score c.participant_count c.budget_per_person
          c.required_features * (7/10) := by
  have heq : VenueA.search_venues st ev c now gp gr = VenueA.fallback_search ev c := by
    unfold VenueA.search_venues
    rw [h]
    rfl
  refine ⟨heq, ?_⟩
  rw [heq]
  intro r hr
  simp only [VenueA.fallback_search, List.mem_map] at hr
  obtain ⟨v, hv, rfl⟩ := hr
  refine ⟨rfl, by simp, ?_, rfl⟩
  simp only [VenueA.fallback_venues, List.mem_cons, List.mem_singleton,
    List.not_mem_nil, or_false] at hv
  rcases hv with rfl | rfl <;> rfl

/-- The loop of `complete_agent` returns nothing exactly when no tracked
instance carries the name with an active status. -/
theorem completeFirst_eq_none (name : String) (r : Option Data) (now : Nat) :
    ∀ l : List Model.AgentInstance,
      Model.completeFirst name r now l = none ↔
        ∀ a ∈ l, ¬(a.agent_name = name ∧ a.status = Model.AgentStatus.active) := by
  intro l
  induction l with
  | nil => simp [Model.completeFirst]
  | cons a rest ih =>
    by_cases h : a.agent_name = name ∧ a.status = Model.AgentStatus.active
    · simp [Model.completeFirst, h]
    · simp only [Model.completeFirst, if_neg h, Option.map_eq_none', ih,
        List.forall_mem_cons]
      exact ⟨fun hr => ⟨h, hr⟩, fun hp => hp.2⟩

/-- A successful `complete_agent` loop rewrites exactly the first matching
active instance and nothing else. -/
theorem completeFirst_eq_some (name : String) (r : Option Data) (now : Nat) :
    ∀ (l l' : List Model.AgentInstance),
      Model.completeFirst name r now l = some l' →
      ∃ l1 a l2, l = l1 ++ a :: l2 ∧
        a.agent_name = name ∧ a.status = Model.AgentStatus.active ∧
        (∀ b ∈ l1, ¬(b.agent_name = name ∧ b.status = Model.AgentStatus.active)) ∧
        l' = l1 ++ { a with
          status := .completed
          completed_at := some now
          progress_percentage := 100
          result_data := Model.completedResultData a.result_data r } :: l2 := by
  intro l
  induction l with
  | nil => intro l' h; simp [Model.completeFirst] at h
  | cons a rest ih =>
    intro l' h
    by_cases hc : a.agent_name = name ∧ a.status = Model.AgentStatus.active
    · simp only [Model.completeFirst, if_pos hc, Option.some.injEq] at h
      exact ⟨[], a, rest, rfl, hc.1, hc.2, by simp, h.symm ▸ by simp⟩
    · simp only [Model.completeFirst, if_neg hc, Option.map_eq_some'] at h
      obtain ⟨lr, hr, rfl⟩ := h
      obtain ⟨l1, b, l2, rfl, hb1, hb2, hl1, rfl⟩ := ih lr hr
      exact ⟨a :: l1, b, l2, rfl, hb1, hb2,
        List.forall_mem_cons.mpr ⟨hc, hl1⟩, rfl⟩

/-- C10: `complete_agent` succeeds exactly when some tracked instance with
the name is currently active; on success it completes the first such
instance (status `completed`, progress 100, result data stamped under the
dict-truthiness rule) and appends the name to `completed_agents`; on failure
the whole session — agent list and `completed_agents` included — is
unchanged. -/
theorem claim_C10 (s : Model.CoordinationSession) (name : String)
    (result : Option Data) (now : Nat) :
    ((Model.complete_agent s name result now).1 = true ↔
      ∃ a ∈ s.active_agents,
        a.agent_name = name ∧ a.status = Model.AgentStatus.active) ∧
    ((Model.complete_agent s name result now).1 = true →
      (Model.complete_agent s name result now).2.completed_agents =
        s.completed_agents ++ [name] ∧
      ∃ l1 a l2, s.active_agents = l1 ++ a :: l2 ∧
        a.agent_name = name ∧ a.status = Model.AgentStatus.active ∧
        (Model.complete_agent s name result now).2.active_agents =
          l1 ++ { a with
            status := .completed
            completed_at := some now
            progress_percentage := 100
            result_data := Model.completedResultData a.result_data result } :: l2) ∧
    ((Model.complete_agent s name result now).1 = false →
      (Model.complete_agent s name result now).2 = s) := by
  rcases hm : Model.completeFirst name result now s.active_agents with _ | l
  · have hno := (completeFirst_eq_none name result now s.active_agents).mp hm
    have hres : Model.complete_agent s name result now = (false, s) := by
      simp [Model.complete_agent, hm]
    refine ⟨?_, ?_, ?_⟩
    · rw [hres]
      constructor
      · intro h; cases h
      · rintro ⟨a, ha, h1, h2⟩
        exact (hno a ha ⟨h1, h2⟩).elim
    · rw [hres]; intro h; cases h
    · rw [hres]; intro _; rfl
  · obtain ⟨l1, a, l2, hsplit, h1, h2, hl1, hl⟩ :=
      completeFirst_eq_some name result now s.active_agents l hm
    have hres1 : (Model.complete_agent s name result now).1 = true := by
      simp [Model.complete_agent, hm]
    have hagents : (Model.complete_agent s name result now).2.active_agents = l := by
      simp [Model.complete_agent, hm, Model.update_timestamp, Model.log_activity]
    have hdone : (Model.complete_agent s name result now).2.completed_agents =
        s.completed_agents ++ [name] := by
      simp [Model.complete_agent, hm, Model.update_timestamp, Model.log_activity]
    refine ⟨?_, ?_, ?_⟩
    · rw [hres1]
      exact ⟨fun _ => ⟨a, by rw [hsplit]; simp, h1, h2⟩, fun _ => rfl⟩
    · intro _
      exact ⟨hdone, l1, a, l2, hsplit, h1, h2, by rw [hagents, hl]⟩
    · rw [hres1]; intro h; cases h

/-- Witness for C10: completing the active agent succeeds and records it;
completing an unknown agent fails and changes nothing. -/
theorem claim_C10_witness :
    (Model.complete_agent sessionOneActive "scheduling_agent" none 9).1 = true ∧
    (Model.complete_agent sessionOneActive "scheduling_agent" none 9).2.completed_agents =
      sessionOneActive.completed_agents ++ ["scheduling_agent"] ∧
    (Model.complete_agent sessionOneActive "venue_agent" none 9).1 = false ∧
    (Model.complete_agent sessionOneActive "venue_agent" none 9).2 = sessionOneActive :=
  ⟨(claim_C10 sessionOneActive "scheduling_agent" none 9).1.mpr
      ⟨{ agent_name := "scheduling_agent", status := .active }, by decide, rfl, rfl⟩,
    ((claim_C10 sessionOneActive "scheduling_agent" none 9).2.1
      ((claim_C10 sessionOneActive "scheduling_agent" none 9).1.mpr
        ⟨{ agent_name := "scheduling_agent", status := .active }, by decide, rfl, rfl⟩)).1,
    by decide,
    (claim_C10 sessionOneActive "venue_agent" none 9).2.2 (by decide)⟩

/-- `create_checkpoint` appends exactly one checkpoint. -/
theorem create_checkpoint_checkpoints (s : Model.CoordinationSession)
    (d : String) (now : Nat) :
    (Model.create_checkpoint s d now).checkpoints =
      s.checkpoints ++ [Model.checkpointOf s d now] := by
  simp [Model.create_checkpoint, Model.log_activity]

/-- Every session operation leaves the existing checkpoint list as a prefix:
checkpoints are only ever appended. -/
theorem stepOp_checkpoints (s : Model.CoordinationSession) (op : Model.SessionOp)
    (now : Nat) : ∃ t, (Model.stepOp s op now).checkpoints = s.checkpoints ++ t := by
  cases op with
  | transition p =>
    by_cases h : p ∈ Model.validTransitions s.current_phase
    · refine ⟨[Model.checkpointOf
        { s with previous_phase := some s.current_phase, current_phase := p }
        (Model.transitionDescription s.current_phase p) now], ?_⟩
      simp [Model.stepOp, Model.transition_to_phase, h, Model.update_timestamp,
        Model.create_checkpoint, Model.log_activity]
    · exact ⟨[], by simp [Model.stepOp, Model.transition_to_phase, h]⟩
  | addAgent n =>
    exact ⟨[], by simp [Model.stepOp, Model.add_agent, Model.update_timestamp,
      Model.log_activity]⟩
  | startAgent n t =>
    rcases hm : Model.startFirst n t now s.active_agents with _ | l
    · exact ⟨[], by simp [Model.stepOp, Model.start_agent, hm]⟩
    · exact ⟨[], by simp [Model.stepOp, Model.start_agent, hm, Model.update_timestamp,
        Model.log_activity]⟩
  | completeAgent n r =>
    rcases hm : Model.completeFirst n r now s.active_agents with _ | l
    · exact ⟨[], by simp [Model.stepOp, Model.complete_agent, hm]⟩
    · exact ⟨[], by simp [Model.stepOp, Model.complete_agent, hm, Model.update_timestamp,
        Model.log_activity]⟩
  | failAgent n m =>
    rcases hm : Model.failFirst n s.active_agents with _ | l
    · exact ⟨[], by simp [Model.stepOp, Model.fail_agent, hm]⟩
    · exact ⟨[], by simp [Model.stepOp, Model.fail_agent, hm, Model.update_timestamp,
        Model.log_error, Model.log_activity]⟩
  | updateProgress n p t =>
    by_cases hp : 100 < p
    · exact ⟨[], by simp [Model.stepOp, Model.update_agent_progress, hp]⟩
    · rcases hm : Model.progressFirst n p t now s.active_agents with _ | l
      · exact ⟨[], by simp [Model.stepOp, Model.update_agent_progress, hp, hm]⟩
      · exact ⟨[], by simp [Model.stepOp, Model.update_agent_progress, hp, hm,
          Model.update_timestamp]⟩
  | logError n t m =>
    exact ⟨[], by simp [Model.stepOp, Model.log_error, Model.update_timestamp,
      Model.log_activity]⟩
  | logActivity m =>
    exact ⟨[], by simp [Model.stepOp, Model.log_activity]⟩
  | checkpoint d =>
    exact ⟨[Model.checkpointOf s d now], by
      simp [Model.stepOp, create_checkpoint_checkpoints]⟩
  | pause r =>
    exact ⟨[], by simp [Model.stepOp, Model.pause_session, Model.update_timestamp,
      Model.log_activity]⟩
  | resume =>
    exact ⟨[], by simp [Model.stepOp, Model.resume_session, Model.update_timestamp,
      Model.log_activity]⟩
  | touch =>
    exact ⟨[], by simp [Model.stepOp, Model.update_timestamp]⟩

/-- Over any sequence of session operations the checkpoint list only grows by
suffixes — it is never removed from or shortened. -/
theorem runOps_checkpoints (ops : List (Model.SessionOp × Nat)) :
    ∀ s : Model.CoordinationSession,
      ∃ t, (Model.runOps s ops).checkpoints = s.checkpoints ++ t := by
  induction ops with
  | nil => intro s; exact ⟨[], by simp [Model.runOps]⟩
  | cons p rest ih =>
    intro s
    rcases p with ⟨op, now⟩
    obtain ⟨t1, h1⟩ := stepOp_checkpoints s op now
    obtain ⟨t2, h2⟩ := ih (Model.stepOp s op now)
    exact ⟨t1 ++ t2, by rw [Model.runOps, h2, h1, List.append_assoc]⟩

/-- C2: an accepted `transition_to_phase` appends exactly one checkpoint,
recording the target phase, the `workflow_data` snapshot and the per-agent
status/progress/task map; a rejected one appends none; and across any
sequence of session operations the checkpoint list is only ever extended, so
its length is monotonically non-decreasing. -/
theorem claim_C2 (s : Model.CoordinationSession) (p : Model.CoordinationPhase)
    (now : Nat) :
    (p ∈ Model.validTransitions s.current_phase →
      (Model.transition_to_phase s p now).2.checkpoints = s.checkpoints ++
        [{ phase := p, timestamp := now, data_snapshot := s.workflow_data,
           agent_states := s.active_agents.map (fun a =>
             (a.agent_name, ⟨a.status, a.progress_percentage, a.current_task⟩)),
           decision_points := [Model.transitionDescription s.current_phase p] }]) ∧
    (p ∉ Model.validTransitions s.current_phase →
      (Model.transition_to_phase s p now).2.checkpoints = s.checkpoints) ∧
    ∀ ops : List (Model.SessionOp × Nat),
      ∃ t, (Model.runOps s ops).checkpoints = s.checkpoints ++ t := by
  refine ⟨?_, ?_, fun ops => runOps_checkpoints ops s⟩
  · intro h
    simp [Model.transition_to_phase, h, Model.update_timestamp,
      Model.create_checkpoint, Model.log_activity, Model.checkpointOf]
  · intro h
    simp [Model.transition_to_phase, h]

/-- Witness for C2: the accepted Initialization → ParticipantCollection
transition appends exactly the expected checkpoint. -/
theorem claim_C2_witness :
    Model.CoordinationPhase.participant_collection ∈
      Model.validTransitions sessionInit.current_phase ∧
    (Model.transition_to_phase sessionInit .participant_collection 3).2.checkpoints =
      sessionInit.checkpoints ++
        [{ phase := .participant_collection, timestamp := 3,
           data_snapshot := sessionInit.workflow_data,
           agent_states := sessionInit.active_agents.map (fun a =>
             (a.agent_name, ⟨a.status, a.progress_percentage, a.current_task⟩)),
           decision_points :=
             [Model.transitionDescription sessionInit.current_phase
               .participant_collection] }] :=
  ⟨by decide, (claim_C2 sessionInit .participant_collection 3).1 (by decide)⟩

/-- C6: the optimizer's output never contains an option with fewer than two
available participants, is sorted in descending order of total score, has
length at most five, and (when non-empty) its index-0 element is the
automatically selected option — which carries a maximal total score. -/
theorem claim_C6 (et : Model.EventType) (slots : List Model.TimeSlot)
    (pts : List (String × List Model.TimeSlot)) :
    (∀ o ∈ Sched.optimize_schedule et slots pts, 2 ≤ o.available_participants.length) ∧
    List.Sorted (fun a b : Sched.ScheduleOption => b.total_score ≤ a.total_score)
      (Sched.optimize_schedule et slots pts) ∧
    (Sched.optimize_schedule et slots pts).length ≤ 5 ∧
    (Sched.optimize_schedule et slots pts ≠ [] →
      ∃ o, Sched.select_best_schedule (Sched.optimize_schedule et slots pts) = some o ∧
        (Sched.optimize_schedule et slots pts).get? 0 = some o ∧
        ∀ x ∈ Sched.optimize_schedule et slots pts, x.total_score ≤ o.total_score) := by
  have hsorted : List.Sorted Sched.scoreGe
      (Sched.optimize_schedule et slots pts) := by
    unfold Sched.optimize_schedule
    exact List.Pairwise.sublist (List.take_sublist 5 _)
      (List.sorted_insertionSort Sched.scoreGe _)
  refine ⟨?_, hsorted, ?_, ?_⟩
  · intro o ho
    unfold Sched.optimize_schedule at ho
    have ho2 := (List.mem_insertionSort Sched.scoreGe).mp (List.mem_of_mem_take ho)
    obtain ⟨a, ha, rfl⟩ := List.mem_map.mp ho2
    exact of_decide_eq_true (List.mem_filter.mp ha).2
  · unfold Sched.optimize_schedule
    exact List.length_take_le 5 _
  · intro hne
    rcases hL : Sched.optimize_schedule et slots pts with _ | ⟨o, rest⟩
    · exact absurd hL hne
    · rw [hL] at hsorted
      refine ⟨o, rfl, rfl, ?_⟩
      intro x hx
      rcases List.mem_cons.mp hx with rfl | hx2
      · exact le_refl _
      · exact List.rel_of_sorted_cons hsorted x hx2

/-- Witness for C6: a concrete dining round yields a non-empty output whose
head is the selected, maximal-score option. -/
theorem claim_C6_witness :
    Sched.optimize_schedule .dining [slotA] ptsA ≠ [] ∧
    (Sched.optimize_schedule .dining [slotA] ptsA).length ≤ 5 ∧
    (∃ o, Sched.select_best_schedule (Sched.optimize_schedule .dining [slotA] ptsA) =
        some o ∧
      (Sched.optimize_schedule .dining [slotA] ptsA).get? 0 = some o ∧
      ∀ x ∈ Sched.optimize_schedule .dining [slotA] ptsA,
        x.total_score ≤ o.total_score) :=
  ⟨by decide, (claim_C6 Model.EventType.dining [slotA] ptsA).2.2.1,
    (claim_C6 Model.EventType.dining [slotA] ptsA).2.2.2 (by decide)⟩

/-- Witness for C7: with no eligible source, the round returns the two fixed
fallback candidates with the 0.7-penalized scores. -/
theorem claim_C7_witness :
    VenueA.merged_results stNoKeys 0 [] [] = [] ∧
    VenueA.search_venues stNoKeys "ev-7" criteriaDining 0 [] [] =
      VenueA.fallback_search "ev-7" criteriaDining ∧
    ∀ r ∈ VenueA.search_venues stNoKeys "ev-7" criteriaDining 0 [] [],
      r.booking_required = true ∧
      "手動確認が必要" ∈ r.notes ∧
      r.venue.booking_status = Model.BookingStatus.manual_required ∧
      r.suitability_score =
        r.venue.calculate_suitability_score criteriaDining.participant_count
          criteriaDining.budget_per_person criteriaDining.required_features * (7/10) :=
  ⟨by decide, claim_C7 stNoKeys "ev-7" criteriaDining 0 [] [] (by decide)⟩

/-- C8: a source with at least 3 failure records in the trailing 300 seconds
is judged ineligible and is not queried in the round; each of the two sources
is queried exactly when `_should_use_api` accepts it (so the remaining
eligible sources are still queried); and the static per-event-type rules
(no gurume categories for the event type) likewise make the gurume source
ineligible. -/
theorem claim_C8 (st : VenueA.VenueAgentState) (now : Nat) :
    (∀ name, 3 ≤ (VenueA.recentFailures st name now).length →
      VenueA.should_use_api st name now = false ∧
        name ∉ VenueA.searched_sources st now) ∧
    ("google_places" ∈ VenueA.searched_sources st now ↔
      VenueA.should_use_api st "google_places" now = true) ∧
    ("gurume" ∈ VenueA.searched_sources st now ↔
      VenueA.should_use_api st "gurume" now = true) ∧
    ((VenueA.gurume_categories st.event_type).isEmpty = true →
      VenueA.should_use_api st "gurume" now = false) := by
  have hgp : "google_places" ∈ VenueA.searched_sources st now ↔
      VenueA.should_use_api st "google_places" now = true := by
    by_cases h1 : VenueA.should_use_api st "google_places" now <;>
      by_cases h2 : VenueA.should_use_api st "gurume" now <;>
        simp [VenueA.searched_sources, h1, h2]
  have hgu : "gurume" ∈ VenueA.searched_sources st now ↔
      VenueA.should_use_api st "gurume" now = true := by
    by_cases h1 : VenueA.should_use_api st "google_places" now <;>
      by_cases h2 : VenueA.should_use_api st "gurume" now <;>
        simp [VenueA.searched_sources, h1, h2]
  have huniv : ∀ name, name ∈ VenueA.searched_sources st now →
      name = "google_places" ∨ name = "gurume" := by
    intro name hn
    by_cases h1 : VenueA.should_use_api st "google_places" now <;>
      by_cases h2 : VenueA.should_use_api st "gurume" now <;>
        simp [VenueA.searched_sources, h1, h2] at hn <;> tauto
  refine ⟨?_, hgp, hgu, ?_⟩
  · intro name hf
    have hfalse : VenueA.should_use_api st name now = false := by
      unfold VenueA.should_use_api
      rw [if_pos hf]
    refine ⟨hfalse, fun hmem => ?_⟩
    rcases huniv name hmem with rfl | rfl
    · rw [hgp.mp hmem] at hfalse
      exact Bool.noConfusion hfalse
    · rw [hgu.mp hmem] at hfalse
      exact Bool.noConfusion hfalse
  · intro hcat
    unfold VenueA.should_use_api
    by_cases hf : 3 ≤ (VenueA.recentFailures st "gurume" now).length
    · rw [if_pos hf]
    · rw [if_neg hf]
      simp [hcat]

/-- Witness for C8 (Scenario C): at time 350 the failing source is skipped
while the other eligible source is still queried. -/
theorem claim_C8_witness :
    3 ≤ (VenueA.recentFailures stScenarioC "google_places" 350).length ∧
    VenueA.should_use_api stScenarioC "google_places" 350 = false ∧
    "google_places" ∉ VenueA.searched_sources stScenarioC 350 ∧
    "gurume" ∈ VenueA.searched_sources stScenarioC 350 :=
  ⟨by decide,
    ((claim_C8 stScenarioC 350).1 "google_places" (by decide)).1,
    ((claim_C8 stScenarioC 350).1 "google_places" (by decide)).2,
    (claim_C8 stScenarioC 350).2.2.1.mpr (by decide)⟩

/-- Witness for the amended C9: a busless agent with event and session ids
sends a message that already carries a session id — the sender id is
overwritten, the event id is stamped, the session id is kept. -/
theorem claim_C9_amended_witness :
    (Base.send_message agentW messageW 4).pending_messages =
      agentW.pending_messages ++ [Base.stampMessage agentW messageW] ∧
    (Base.stampMessage agentW messageW).sender_id = "agent-W" ∧
    (Base.stampMessage agentW messageW).event_id = some "ev-1" ∧
    (Base.stampMessage agentW messageW).session_id = some "se-9" := by
  have h := claim_C9_amended agentW messageW 4 rfl
  exact ⟨h.1, h.2.2.1, h.2.2.2.2.2.1 (by decide) (by decide),
    h.2.2.2.2.1 (by decide)⟩

/-- The analyzer's available list is the projection of the participants whose
declared slots overlap the candidate. -/
theorem analyze_available (slot : Model.TimeSlot) :
    ∀ pts, (Sched.analyze_single_time_slot slot pts).participants_available =
      (SchedSpec.availableParticipants slot pts).map (·.1) := by
  intro pts
  induction pts with
  | nil => simp [Sched.analyze_single_time_slot, SchedSpec.availableParticipants]
  | cons p rest ih =>
    rcases p with ⟨uid, uslots⟩
    by_cases hb : Sched.participantAvailable slot uslots
    · simp [Sched.analyze_single_time_slot, SchedSpec.availableParticipants, hb, ih]
    · simp [Sched.analyze_single_time_slot, SchedSpec.availableParticipants, hb, ih]

/-- The analyzer's unavailable list is the projection of the participants
with no overlapping declared slot. -/
theorem analyze_unavailable (slot : Model.TimeSlot) :
    ∀ pts, (Sched.analyze_single_time_slot slot pts).participants_unavailable =
      (SchedSpec.unavailableParticipants slot pts).map (·.1) := by
  intro pts
  induction pts with
  | nil => simp [Sched.analyze_single_time_slot, SchedSpec.unavailableParticipants]
  | cons p rest ih =>
    rcases p with ⟨uid, uslots⟩
    by_cases hb : Sched.participantAvailable slot uslots
    · simp [Sched.analyze_single_time_slot, SchedSpec.unavailableParticipants, hb, ih]
    · simp [Sched.analyze_single_time_slot, SchedSpec.unavailableParticipants, hb, ih]

/-- The analyzer's weight map pairs each available participant with its
normalized best preference. -/
theorem analyze_weights (slot : Model.TimeSlot) :
    ∀ pts, (Sched.analyze_single_time_slot slot pts).preference_weights =
      (SchedSpec.availableParticipants slot pts).map
        (fun p => (p.1, (Sched.participantMaxPreference slot p.2 : ℚ) / 3)) := by
  intro pts
  induction pts with
  | nil => simp [Sched.analyze_single_time_slot, SchedSpec.availableParticipants]
  | cons p rest ih =>
    rcases p with ⟨uid, uslots⟩
    by_cases hb : Sched.participantAvailable slot uslots
    · simp [Sched.analyze_single_time_slot, SchedSpec.availableParticipants, hb, ih]
    · simp [Sched.analyze_single_time_slot, SchedSpec.availableParticipants, hb, ih]

/-- The analyzer's conflict details are the concatenation of the
per-participant partial-overlap details. -/
theorem analyze_conflicts (slot : Model.TimeSlot) :
    ∀ pts, (Sched.analyze_single_time_slot slot pts).conflict_details =
      (pts.map (fun p => Sched.participantConflicts slot p.1 p.2)).flatten := by
  intro pts
  induction pts with
  | nil => simp [Sched.analyze_single_time_slot]
  | cons p rest ih =>
    rcases p with ⟨uid, uslots⟩
    by_cases hb : Sched.participantAvailable slot uslots
    · simp [Sched.analyze_single_time_slot, hb, ih]
    · simp [Sched.analyze_single_time_slot, hb, ih]

/-- Every participant is classified exactly once: the two lists partition. -/
theorem analyze_counts (slot : Model.TimeSlot) (pts : List (String × List Model.TimeSlot)) :
    (Sched.analyze_single_time_slot slot pts).participants_available.length +
      (Sched.analyze_single_time_slot slot pts).participants_unavailable.length =
      pts.length := by
  rw [analyze_available, analyze_unavailable]
  simp only [List.length_map, SchedSpec.availableParticipants,
    SchedSpec.unavailableParticipants]
  exact (List.length_eq_length_filter_add _).symm

/-- The code's preference score equals the claim's mean formula. -/
theorem preference_eq (slot : Model.TimeSlot) (pts : List (String × List Model.TimeSlot)) :
    Sched.calculate_preference_score (Sched.analyze_single_time_slot slot pts) =
      SchedSpec.preference slot pts := by
  unfold Sched.calculate_preference_score SchedSpec.preference
  rw [analyze_weights slot pts]
  by_cases he : SchedSpec.availableParticipants slot pts = []
  · simp [he]
  · rw [if_neg (by simpa using he)]
    simp [List.map_map, Function.comp_def]

/-- The analyzer returns the candidate slot unchanged. -/
theorem analyze_time_slot_field (slot : Model.TimeSlot) :
    ∀ pts, (Sched.analyze_single_time_slot slot pts).time_slot = slot := by
  intro pts
  induction pts with
  | nil => rfl
  | cons p rest ih =>
    rcases p with ⟨uid, uslots⟩
    by_cases hb : Sched.participantAvailable slot uslots
    · simp [Sched.analyze_single_time_slot, hb, ih]
    · simp [Sched.analyze_single_time_slot, hb, ih]

/-- The code's conflict score equals the claim's capped ratio (for a
non-empty participant set). -/
theorem conflict_eq (slot : Model.TimeSlot) (pts : List (String × List Model.TimeSlot))
    (hpos : 0 < pts.length) :
    Sched.calculate_conflict_score (Sched.analyze_single_time_slot slot pts) =
      SchedSpec.conflict slot pts := by
  unfold Sched.calculate_conflict_score SchedSpec.conflict
  rw [analyze_conflicts slot pts]
  unfold SchedSpec.conflictDetailCount
  by_cases he : ((pts.map (fun p => Sched.participantConflicts slot p.1 p.2)).flatten) = []
  · rw [if_pos (by simpa using he), he]
    simp
  · rw [if_neg (by simpa using he)]
    rw [if_neg (by rw [analyze_counts slot pts]; omega)]
    rw [analyze_counts slot pts, min_comm]

/-- The code's attendance rate equals the claim's ratio (for a non-empty
participant set). -/
theorem attendance_eq (slot : Model.TimeSlot) (pts : List (String × List Model.TimeSlot))
    (hpos : 0 < pts.length) :
    (Sched.analyze_single_time_slot slot pts).get_availability_score =
      SchedSpec.attendance slot pts := by
  unfold Sched.TimeSlotAnalysis.get_availability_score SchedSpec.attendance
  rw [if_neg (by rw [analyze_counts slot pts]; omega)]
  rw [analyze_available, analyze_unavailable]
  simp [SchedSpec.availableParticipants, SchedSpec.unavailableParticipants]

/-- The code's event-type fitness is definitionally the claim's typeFit. -/
theorem typeFit_eq (et : Model.EventType) (slot : Model.TimeSlot) :
    Sched.calculate_event_type_fitness et slot = SchedSpec.typeFit et slot := by
  unfold Sched.calculate_event_type_fitness SchedSpec.typeFit
  rfl

/-- C5: for a candidate with at least two available participants, the
option's total score is exactly 0.30·preference + 0.20·(1−conflict) +
0.30·attendance + 0.20·typeFit, with the four factors given by the claim's
formulas over the raw participant declarations. -/
theorem claim_C5 (et : Model.EventType) (slot : Model.TimeSlot)
    (pts : List (String × List Model.TimeSlot))
    (h : 2 ≤ (Sched.analyze_single_time_slot slot pts).participants_available.length) :
    (Sched.create_schedule_option et (Sched.analyze_single_time_slot slot pts)).total_score =
      (3/10) * SchedSpec.preference slot pts +
      (2/10) * (1 - SchedSpec.conflict slot pts) +
      (3/10) * SchedSpec.attendance slot pts +
      (2/10) * SchedSpec.typeFit et slot := by
  have hpos : 0 < pts.length := by
    have hc := analyze_counts slot pts
    omega
  have h1 := preference_eq slot pts
  have h2 := conflict_eq slot pts hpos
  have h3 := attendance_eq slot pts hpos
  have h4 := typeFit_eq et slot
  simp only [Sched.create_schedule_option]
  rw [h1, h2, h3, analyze_time_slot_field slot pts, h4]
  ring

/-- Witness for C5: the concrete dining slot of Scenario A with two covering
participants satisfies the availability bound and the formula. -/
theorem claim_C5_witness :
    2 ≤ (Sched.analyze_single_time_slot slotA ptsA).participants_available.length ∧
    (Sched.create_schedule_option .dining
        (Sched.analyze_single_time_slot slotA ptsA)).total_score =
      (3/10) * SchedSpec.preference slotA ptsA +
      (2/10) * (1 - SchedSpec.conflict slotA ptsA) +
      (3/10) * SchedSpec.attendance slotA ptsA +
      (2/10) * SchedSpec.typeFit .dining slotA :=
  ⟨by decide, claim_C5 Model.EventType.dining slotA ptsA (by decide)⟩

/-- The loop of `start_agent` returns nothing exactly when no tracked
instance carries the name with an idle status. -/
theorem startFirst_eq_none (name : String) (task : Option String) (now : Nat) :
    ∀ l : List Model.AgentInstance,
      Model.startFirst name task now l = none ↔
        ∀ a ∈ l, ¬(a.agent_name = name ∧ a.status = Model.AgentStatus.idle) := by
  intro l
  induction l with
  | nil => simp [Model.startFirst]
  | cons a rest ih =>
    by_cases h : a.agent_name = name ∧ a.status = Model.AgentStatus.idle
    · simp [Model.startFirst, h]
    · simp only [Model.startFirst, if_neg h, Option.map_eq_none', ih,
        List.forall_mem_cons]
      exact ⟨fun hr => ⟨h, hr⟩, fun hp => hp.2⟩

/-- On the first idle instance carrying the name, the `start_agent` loop
activates exactly that instance. -/
theorem startFirst_first (name : String) (task : Option String) (now : Nat) :
    ∀ (l1 : List Model.AgentInstance) (a : Model.AgentInstance)
      (l2 : List Model.AgentInstance),
      a.agent_name = name → a.status = Model.AgentStatus.idle →
      (∀ b ∈ l1, ¬(b.agent_name = name ∧ b.status = Model.AgentStatus.idle)) →
      Model.startFirst name task now (l1 ++ a :: l2) =
        some (l1 ++ { a with
          status := .active
          started_at := some now
          last_heartbeat := some now
          current_task := if strTruthy task then task else a.current_task } :: l2) := by
  intro l1
  induction l1 with
  | nil =>
    intro a l2 h1 h2 _
    simp [Model.startFirst, h1, h2]
  | cons b rest ih =>
    intro a l2 h1 h2 hfb
    have hb : ¬(b.agent_name = name ∧ b.status = Model.AgentStatus.idle) :=
      hfb b (by simp)
    have hrest : ∀ c ∈ rest, ¬(c.agent_name = name ∧ c.status = Model.AgentStatus.idle) :=
      fun c hc => hfb c (by simp [hc])
    simp only [List.cons_append, Model.startFirst, if_neg hb, List.append_eq,
      ih a l2 h1 h2 hrest, Option.map_some']

/-- With every dependency registered, the dependency loop never reports a
missing registration. -/
theorem checkDeps_not_missing (st : Coord.CoordState) :
    ∀ deps : List String,
      (∀ d ∈ deps, ∃ j, Coord.assocFind st.managed d = some j) →
      Coord.checkDeps st deps ≠ Coord.DepCheck.missing := by
  intro deps
  induction deps with
  | nil => intro _ h; cases h
  | cons d rest ih =>
    intro hdeps
    obtain ⟨j, hj⟩ := hdeps d (by simp)
    by_cases hc : Coord.statusAt st j = Model.AgentStatus.completed
    · simp only [Coord.checkDeps, hj, if_pos hc]
      exact ih (fun e he => hdeps e (by simp [he]))
    · simp [Coord.checkDeps, hj, hc]

/-- With every dependency registered and completed, the dependency loop
accepts. -/
theorem checkDeps_all (st : Coord.CoordState) :
    ∀ deps : List String,
      (∀ d ∈ deps, ∃ j, Coord.assocFind st.managed d = some j ∧
        Coord.statusAt st j = Model.AgentStatus.completed) →
      Coord.checkDeps st deps = Coord.DepCheck.allCompleted := by
  intro deps
  induction deps with
  | nil => intro _; rfl
  | cons d rest ih =>
    intro hdeps
    obtain ⟨j, hj, hc⟩ := hdeps d (by simp)
    simp only [Coord.checkDeps, hj, if_pos hc]
    exact ih (fun e he => hdeps e (by simp [he]))

/-- With every dependency registered but some dependency not completed, the
dependency loop reports the wait. -/
theorem checkDeps_waiting (st : Coord.CoordState) :
    ∀ deps : List String,
      (∀ d ∈ deps, ∃ j, Coord.assocFind st.managed d = some j) →
      (∃ d ∈ deps, ∃ j, Coord.assocFind st.managed d = some j ∧
        Coord.statusAt st j ≠ Model.AgentStatus.completed) →
      Coord.checkDeps st deps = Coord.DepCheck.waitingOn := by
  intro deps
  induction deps with
  | nil => intro _ h; simp at h
  | cons d rest ih =>
    intro hdeps hex
    obtain ⟨j, hj⟩ := hdeps d (by simp)
    by_cases hc : Coord.statusAt st j = Model.AgentStatus.completed
    · simp only [Coord.checkDeps, hj, if_pos hc]
      apply ih (fun e he => hdeps e (by simp [he]))
      obtain ⟨e, he, k, hk, hkc⟩ := hex
      rcases List.mem_cons.mp he with rfl | he2
      · rw [hj] at hk
        cases hk
        exact absurd hc hkc
      · exact ⟨e, he2, k, hk, hkc⟩
    · simp [Coord.checkDeps, hj, hc]

/-- Counterexample to C4 as stated: "venue_agent" is registered and its only
declared dependency "scheduling_agent" is Completed, yet `start` fails (the
session-level `start_agent` activates only idle instances, and this tracked
instance is Waiting from an earlier refused start) and no status is changed —
the claim promises success and an Active status here. -/
theorem claim_C4_counterexample :
    Coord.assocFind stWaitingVenue.managed "venue_agent" = some 1 ∧
    Coord.agent_dependencies "venue_agent" = ["scheduling_agent"] ∧
    Coord.assocFind stWaitingVenue.managed "scheduling_agent" = some 0 ∧
    Coord.statusAt stWaitingVenue 0 = Model.AgentStatus.completed ∧
    (Coord.coordStartAgent stWaitingVenue "venue_agent" none 0).1 = false ∧
    (Coord.coordStartAgent stWaitingVenue "venue_agent" none 0).2 = stWaitingVenue := by
  refine ⟨?_, ?_, ?_, ?_, ?_, ?_⟩ <;> decide

/-- C4 (amended): for a registered agent whose declared dependencies are all
registered: when some dependency's status is not Completed, `start` fails and
marks the agent's tracked instance Waiting; when every dependency is
Completed, `start` succeeds and activates (stamping the start time) exactly
when the session tracks an Idle instance of the name — with no Idle instance
(for example one already Waiting), it fails with no state change. -/
theorem claim_C4_amended (st : Coord.CoordState) (name : String)
    (task : Option String) (now : Nat) (idx : Nat)
    (hreg : Coord.assocFind st.managed name = some idx)
    (hdeps : ∀ d ∈ Coord.agent_dependencies name,
      ∃ j, Coord.assocFind st.managed d = some j) :
    ((∃ d ∈ Coord.agent_dependencies name, ∃ j,
        Coord.assocFind st.managed d = some j ∧
        Coord.statusAt st j ≠ Model.AgentStatus.completed) →
      (Coord.coordStartAgent st name task now).1 = false ∧
      (Coord.coordStartAgent st name task now).2.session.active_agents =
        Coord.listModify st.session.active_agents idx
          (fun a => { a with status := .waiting })) ∧
    ((∀ d ∈ Coord.agent_dependencies name, ∃ j,
        Coord.assocFind st.managed d = some j ∧
        Coord.statusAt st j = Model.AgentStatus.completed) →
      ((∀ a ∈ st.session.active_agents,
          ¬(a.agent_name = name ∧ a.status = Model.AgentStatus.idle)) →
        Coord.coordStartAgent st name task now = (false, st)) ∧
      (∀ l1 a l2, st.session.active_agents = l1 ++ a :: l2 →
        a.agent_name = name → a.status = Model.AgentStatus.idle →
        (∀ b ∈ l1, ¬(b.agent_name = name ∧ b.status = Model.AgentStatus.idle)) →
        (Coord.coordStartAgent st name task now).1 = true ∧
        (Coord.coordStartAgent st name task now).2.session.active_agents =
          l1 ++ { a with
            status := .active
            started_at := some now
            last_heartbeat := some now
            current_task := if strTruthy task then task else a.current_task } :: l2)) := by
  constructor
  · intro hex
    have hw : Coord.checkDeps st (Coord.agent_dependencies name) =
        Coord.DepCheck.waitingOn :=
      checkDeps_waiting st (Coord.agent_dependencies name) hdeps hex
    simp [Coord.coordStartAgent, hreg, hw]
  · intro hall
    have hc : Coord.checkDeps st (Coord.agent_dependencies name) =
        Coord.DepCheck.allCompleted :=
      checkDeps_all st (Coord.agent_dependencies name) hall
    constructor
    · intro hnone
      have hsf : Model.startFirst name task now st.session.active_agents = none :=
        (startFirst_eq_none name task now st.session.active_agents).mpr hnone
      simp [Coord.coordStartAgent, hreg, hc, Model.start_agent, hsf]
    · intro l1 a l2 hsplit h1 h2 hl1
      have hsf := startFirst_first name task now l1 a l2 h1 h2 hl1
      rw [← hsplit] at hsf
      constructor
      · simp [Coord.coordStartAgent, hreg, hc, Model.start_agent, hsf]
      · simp [Coord.coordStartAgent, hreg, hc, Model.start_agent, hsf,
          Model.update_timestamp, Model.log_activity]

/-- Witness for the amended C4 (Scenario B): starting "venue_agent" while
"scheduling_agent" is still Active fails and marks the venue instance
Waiting. -/
theorem claim_C4_amended_witness :
    (Coord.coordStartAgent stScenarioB "venue_agent" none 5).1 = false ∧
    (Coord.coordStartAgent stScenarioB "venue_agent" none 5).2.session.active_agents =
      Coord.listModify stScenarioB.session.active_agents 1
        (fun a => { a with status := .waiting }) :=
  (claim_C4_amended stScenarioB "venue_agent" none 5 1 rfl
      (fun d hd => by
        have hds : d = "scheduling_agent" := by
          simpa [Coord.agent_dependencies] using hd
        exact hds ▸ ⟨0, rfl⟩)).1
    ⟨"scheduling_agent", by decide, 0, rfl, by decide⟩
